import Mathlib

/-!
Shallow embedding of `src/FastNoiseCL/FastNoiseCL.h` (configuration core of
FastNoiseCL). C++ `float` fields are embedded as `ℚ`; `int` as `ℤ`;
pointers (`FastNoiseCL*`) as `Option Nat` where `none` stands for `nullptr`
and `some id` for a pointer to the instance identified by `id`.
-/

namespace FastNoiseCL

/-- `enum NoiseType` (FastNoiseCL.h line 77). -/
inductive NoiseType
  | Value | ValueFractal | Perlin | PerlinFractal | Simplex | SimplexFractal | Cellular | WhiteNoise
deriving DecidableEq, Repr

/-- `enum Interp` (FastNoiseCL.h line 78). -/
inductive Interp
  | Linear | Hermite | Quintic
deriving DecidableEq, Repr

/-- `enum FractalType` (FastNoiseCL.h line 79). -/
inductive FractalType
  | FBM | Billow | RigidMulti
deriving DecidableEq, Repr

/-- `enum CellularDistanceFunction` (FastNoiseCL.h line 80). -/
inductive CellularDistanceFunction
  | Euclidean | Manhattan | Natural
deriving DecidableEq, Repr

/-- `enum CellularReturnType` (FastNoiseCL.h line 81). -/
inductive CellularReturnType
  | CellValue | NoiseLookup | Distance | Distance2 | Distance2Add | Distance2Sub | Distance2Mul | Distance2Div
deriving DecidableEq, Repr

/-- `enum PerturbType` (FastNoiseCL.h line 82). -/
inductive PerturbType
  | None | Single | Fractal
deriving DecidableEq, Repr

/-- The protected data members of class `FastNoiseCL` (FastNoiseCL.h lines 208-236). -/
structure State where
  m_seed : ℤ
  m_frequency : ℚ
  m_interp : Interp
  m_noiseType : NoiseType
  m_octaves : ℤ
  m_lacunarity : ℚ
  m_gain : ℚ
  m_fractalType : FractalType
  m_fractalBounding : ℚ
  m_cellularDistanceFunction : CellularDistanceFunction
  m_cellularReturnType : CellularReturnType
  m_cellularNoiseLookup : Option Nat
  m_perturbAmp : ℚ
  m_perturb : PerturbType
deriving DecidableEq, Repr

/-- One iteration of the loop body in `CalculateFractalBounding`
(`ampFractal += amp; amp *= m_gain;`), on the pair `(amp, ampFractal)`. -/
def fbStep (gain : ℚ) (p : ℚ × ℚ) : ℚ × ℚ := (p.1 * gain, p.2 + p.1)

/-- `n` iterations of the `CalculateFractalBounding` loop body starting from
the initial values `amp = m_gain`, `ampFractal = 1.0`. -/
def fbIter (gain : ℚ) : Nat → ℚ × ℚ
  | 0 => (gain, 1)
  | n + 1 => fbStep gain (fbIter gain n)

/-- Number of times the loop condition `i < m_octaves` holds, for `i` starting
at `1`: the comparison is between `unsigned int i` and `int m_octaves`, so C++
converts `m_octaves` to `unsigned int`, i.e. reduces it modulo `2^32`. -/
def cppLoopBound (octaves : ℤ) : Nat := (octaves % (2 ^ 32)).toNat

/-- The value stored into `m_fractalBounding` by `CalculateFractalBounding`
(FastNoiseCL.h lines 219-229): `1.0f / ampFractal` after the loop
`for (unsigned int i = 1; i < m_octaves; i++) { ampFractal += amp; amp *= m_gain; }`
with the initial values `amp = m_gain`, `ampFractal = 1.0f`. -/
def calculateFractalBounding (gain : ℚ) (octaves : ℤ) : ℚ :=
  1 / (fbIter gain (cppLoopBound octaves - 1)).2

/-- The member `void CalculateFractalBounding()`: recomputes `m_fractalBounding`
from the current `m_gain` and `m_octaves`, touching nothing else. -/
def CalculateFractalBoundingM (s : State) : State :=
  { s with m_fractalBounding := calculateFractalBounding s.m_gain s.m_octaves }

/-- Modelled from the spec: `void SetSeed(int seed)` is declared at
FastNoiseCL.h line 85 but its body is not under src; the spec says the seed
setter stores the seed used for all noise types. -/
def SetSeed (s : State) (seed : ℤ) : State := { s with m_seed := seed }

/-- `int GetSeed(void) const { return m_seed; }` (line 90); a const member,
modelled as returning the read value together with the (unchanged) object. -/
def GetSeed (s : State) : ℤ × State := (s.m_seed, s)

/-- `void SetFrequency(float frequency) { m_frequency = frequency; }` (line 95). -/
def SetFrequency (s : State) (frequency : ℚ) : State := { s with m_frequency := frequency }

/-- `void SetInterp(Interp interp) { m_interp = interp; }` (line 103). -/
def SetInterp (s : State) (interp : Interp) : State := { s with m_interp := interp }

/-- `void SetNoiseType(NoiseType noiseType) { m_noiseType = noiseType; }` (line 110). -/
def SetNoiseType (s : State) (noiseType : NoiseType) : State := { s with m_noiseType := noiseType }

/-- `void SetFractalOctaves(int octaves) { m_octaves = octaves; CalculateFractalBounding(); }` (line 115). -/
def SetFractalOctaves (s : State) (octaves : ℤ) : State :=
  CalculateFractalBoundingM { s with m_octaves := octaves }

/-- `void SetFractalLacunarity(float lacunarity) { m_lacunarity = lacunarity; }` (line 120). -/
def SetFractalLacunarity (s : State) (lacunarity : ℚ) : State := { s with m_lacunarity := lacunarity }

/-- `void SetFractalGain(float gain) { m_gain = gain; CalculateFractalBounding(); }` (line 125). -/
def SetFractalGain (s : State) (gain : ℚ) : State :=
  CalculateFractalBoundingM { s with m_gain := gain }

/-- `void SetFractalType(FractalType fractalType) { m_fractalType = fractalType; }` (line 132). -/
def SetFractalType (s : State) (fractalType : FractalType) : State := { s with m_fractalType := fractalType }

/-- `void SetCellularDistanceFunction(...)` (line 140). -/
def SetCellularDistanceFunction (s : State) (f : CellularDistanceFunction) : State :=
  { s with m_cellularDistanceFunction := f }

/-- `void SetCellularReturnType(...)` (line 147). -/
def SetCellularReturnType (s : State) (r : CellularReturnType) : State :=
  { s with m_cellularReturnType := r }

/-- `void SetCellularNoiseLookup(FastNoiseCL* noise) { m_cellularNoiseLookup = noise; }` (line 152). -/
def SetCellularNoiseLookup (s : State) (noise : Option Nat) : State :=
  { s with m_cellularNoiseLookup := noise }

/-- `void SetPerturbAmp(float perturbAmp) { m_perturbAmp = perturbAmp / 0.45f; }` (line 157). -/
def SetPerturbAmp (s : State) (perturbAmp : ℚ) : State :=
  { s with m_perturbAmp := perturbAmp / (45 / 100) }

/-- `void SetPeturbType(PerturbType perturb) { m_perturb = perturb; }` (line 164). -/
def SetPeturbType (s : State) (perturb : PerturbType) : State := { s with m_perturb := perturb }

/-- The object produced by the default member initializers (lines 208-236),
before any constructor body runs. `m_fractalBounding` (line 218) has no
initializer, so its pre-constructor value is an arbitrary `uninit`. -/
def defaultMembers (uninit : ℚ) : State :=
  { m_seed := 1337
    m_frequency := 1 / 100
    m_interp := Interp.Quintic
    m_noiseType := NoiseType.Simplex
    m_octaves := 3
    m_lacunarity := 2
    m_gain := 1 / 2
    m_fractalType := FractalType.FBM
    m_fractalBounding := uninit
    m_cellularDistanceFunction := CellularDistanceFunction.Euclidean
    m_cellularReturnType := CellularReturnType.CellValue
    m_cellularNoiseLookup := Option.none
    m_perturbAmp := (1 : ℚ) / (45 / 100)
    m_perturb := PerturbType.None }

/-- The constructor `FastNoiseCL(int seed = 1337)` (lines 66-69): default
member initializers, then `SetSeed(seed); CalculateFractalBounding();`.
The device constructor (lines 60-64) performs the same state initialization
plus `PrepareDevice`, which touches no configuration field. -/
def construct (uninit : ℚ) (seed : ℤ) : State :=
  CalculateFractalBoundingM (SetSeed (defaultMembers uninit) seed)

/-- A construction with the default seed argument `1337`. -/
def constructDefault (uninit : ℚ) : State := construct uninit 1337

/-- The destructor `~FastNoiseCL() { delete m_cellularNoiseLookup; }` (line 70),
modelled by the pointer handed to `delete`: `none` (i.e. `nullptr`, for which
`delete` is a no-op) or `some id` of the deleted instance. -/
def destructorDeletes (s : State) : Option Nat := s.m_cellularNoiseLookup

/-- One public setter call together with its argument, covering every setter
of the class (FastNoiseCL.h lines 85-164). -/
inductive SetterOp
  | setSeed (v : ℤ)
  | setFrequency (v : ℚ)
  | setInterp (v : Interp)
  | setNoiseType (v : NoiseType)
  | setFractalOctaves (v : ℤ)
  | setFractalLacunarity (v : ℚ)
  | setFractalGain (v : ℚ)
  | setFractalType (v : FractalType)
  | setCellularDistanceFunction (v : CellularDistanceFunction)
  | setCellularReturnType (v : CellularReturnType)
  | setCellularNoiseLookup (v : Option Nat)
  | setPerturbAmp (v : ℚ)
  | setPeturbType (v : PerturbType)

/-- Running one setter call on the object state. -/
def applySetter (s : State) : SetterOp → State
  | .setSeed v => SetSeed s v
  | .setFrequency v => SetFrequency s v
  | .setInterp v => SetInterp s v
  | .setNoiseType v => SetNoiseType s v
  | .setFractalOctaves v => SetFractalOctaves s v
  | .setFractalLacunarity v => SetFractalLacunarity s v
  | .setFractalGain v => SetFractalGain s v
  | .setFractalType v => SetFractalType s v
  | .setCellularDistanceFunction v => SetCellularDistanceFunction s v
  | .setCellularReturnType v => SetCellularReturnType s v
  | .setCellularNoiseLookup v => SetCellularNoiseLookup s v
  | .setPerturbAmp v => SetPerturbAmp s v
  | .setPeturbType v => SetPeturbType s v

/-- The names of the data members of the class, used to state frame
conditions about which fields a setter may touch. -/
inductive Field
  | seed | frequency | interp | noiseType | octaves | lacunarity | gain
  | fractalType | fractalBounding | cellularDistanceFunction
  | cellularReturnType | cellularNoiseLookup | perturbAmp | perturb
deriving DecidableEq, Repr

/-- Observation of one field of the state, injectively encoded into `ℚ`
(enumerations by constructor index, the pointer by `none ↦ 0`, `some n ↦ n+1`). -/
def obs (s : State) : Field → ℚ
  | .seed => (s.m_seed : ℚ)
  | .frequency => s.m_frequency
  | .interp => match s.m_interp with | .Linear => 0 | .Hermite => 1 | .Quintic => 2
  | .noiseType =>
      match s.m_noiseType with
      | .Value => 0 | .ValueFractal => 1 | .Perlin => 2 | .PerlinFractal => 3
      | .Simplex => 4 | .SimplexFractal => 5 | .Cellular => 6 | .WhiteNoise => 7
  | .octaves => (s.m_octaves : ℚ)
  | .lacunarity => s.m_lacunarity
  | .gain => s.m_gain
  | .fractalType => match s.m_fractalType with | .FBM => 0 | .Billow => 1 | .RigidMulti => 2
  | .fractalBounding => s.m_fractalBounding
  | .cellularDistanceFunction =>
      match s.m_cellularDistanceFunction with | .Euclidean => 0 | .Manhattan => 1 | .Natural => 2
  | .cellularReturnType =>
      match s.m_cellularReturnType with
      | .CellValue => 0 | .NoiseLookup => 1 | .Distance => 2 | .Distance2 => 3
      | .Distance2Add => 4 | .Distance2Sub => 5 | .Distance2Mul => 6 | .Distance2Div => 7
  | .cellularNoiseLookup =>
      match s.m_cellularNoiseLookup with | Option.none => 0 | Option.some n => (n : ℚ) + 1
  | .perturbAmp => s.m_perturbAmp
  | .perturb => match s.m_perturb with | .None => 0 | .Single => 1 | .Fractal => 2

/-- The fields a given setter call is allowed to write: its own backing field,
plus `m_fractalBounding` for the two setters that call `CalculateFractalBounding`. -/
def ownFields : SetterOp → List Field
  | .setSeed _ => [.seed]
  | .setFrequency _ => [.frequency]
  | .setInterp _ => [.interp]
  | .setNoiseType _ => [.noiseType]
  | .setFractalOctaves _ => [.octaves, .fractalBounding]
  | .setFractalLacunarity _ => [.lacunarity]
  | .setFractalGain _ => [.gain, .fractalBounding]
  | .setFractalType _ => [.fractalType]
  | .setCellularDistanceFunction _ => [.cellularDistanceFunction]
  | .setCellularReturnType _ => [.cellularReturnType]
  | .setCellularNoiseLookup _ => [.cellularNoiseLookup]
  | .setPerturbAmp _ => [.perturbAmp]
  | .setPeturbType _ => [.perturb]

/-- The cached-value invariant of the class: `m_fractalBounding` holds exactly
what `CalculateFractalBounding` computes from the current `m_gain`, `m_octaves`. -/
def FractalBoundingInvariant (s : State) : Prop :=
  s.m_fractalBounding = calculateFractalBounding s.m_gain s.m_octaves

/-- Modelled from the spec: the FBM fractal combinator (spec 4.4); its
implementation (the OpenCL kernels behind `Get*Fractal`) is not under src.
FBM accumulates `amp_i * primitive(seed + i, coord * freq_i)` for
`i = 0 .. O-1` with `freq_i = frequency * lacunarity^i`, `amp_i = gain^i`,
then multiplies the sum by the fractal bounding factor. The base primitive is
abstract (`prim`, taking seed, interpolation mode and a scaled coordinate of
abstract type `C`); `scale f c` multiplies a coordinate by a frequency. -/
def fbmFractal {C : Type} (prim : ℤ → Interp → C → ℚ) (scale : ℚ → C → C)
    (s : State) (coord : C) : ℚ :=
  s.m_fractalBounding *
    ∑ i in Finset.range s.m_octaves.toNat,
      s.m_gain ^ i * prim (s.m_seed + i) s.m_interp (scale (s.m_frequency * s.m_lacunarity ^ i) coord)

/-- Modelled from the spec: a single evaluation of the base primitive on the
frequency-scaled coordinate (spec 4.3), the "undilated" base output. -/
def basePrimitive {C : Type} (prim : ℤ → Interp → C → ℚ) (scale : ℚ → C → C)
    (s : State) (coord : C) : ℚ :=
  prim s.m_seed s.m_interp (scale s.m_frequency coord)

/-- Modelled from the spec: the final combine step of the cellular resolver
(spec 4.5); the OpenCL kernel behind `GetCellular` is not under src. The
nearest/second-nearest distances `d1`, `d2`, the hash of the nearest cell and
the lookup value are computed once; the return type only selects the combine. -/
def cellularCombine (ret : CellularReturnType) (cellHash lookupVal d1 d2 : ℚ) : ℚ :=
  match ret with
  | .CellValue => cellHash
  | .NoiseLookup => lookupVal
  | .Distance => d1
  | .Distance2 => d2
  | .Distance2Add => d2 + d1
  | .Distance2Sub => d2 - d1
  | .Distance2Mul => d2 * d1
  | .Distance2Div => d1 / d2

/-- Modelled from the spec: the cellular return value for one sample point on
a configuration, given the shared nearest/second-nearest computation
(`dists`), the nearest cell hash and the lookup value at that point. -/
def cellularResolve (s : State) (dists : ℚ × ℚ) (cellHash lookupVal : ℚ) : ℚ :=
  cellularCombine s.m_cellularReturnType cellHash lookupVal dists.1 dists.2

/-- The configuration errors of spec section 7 that are detected at dispatch
time. -/
inductive ConfigError
  | MissingCellularLookup
deriving DecidableEq, Repr

/-- Modelled from the spec: dispatch-time validation for a cellular evaluation
(spec 4.7 and 7); the body of `GetCellular` is not under src. If the return
type is `NoiseLookup` and no secondary configuration was set
(`m_cellularNoiseLookup` still `nullptr`), a configuration error is reported
and no output array is produced; otherwise the per-point evaluation `eval`
runs over the flattened grid. The configuration is returned unchanged either
way (evaluation has no configuration side effect). -/
def getCellularChecked (eval : State → ℚ → ℚ) (s : State) (pts : List ℚ) :
    Except ConfigError (List ℚ) × State :=
  if s.m_cellularReturnType = CellularReturnType.NoiseLookup ∧
      s.m_cellularNoiseLookup = Option.none then
    (Except.error ConfigError.MissingCellularLookup, s)
  else
    (Except.ok (pts.map (eval s)), s)

/-- Modelled from the spec: in-order dispatch (spec 4.7) — one scalar per grid
point, in grid iteration order, each point evaluated by the pure per-point
function `f`. -/
def evalGrid (f : ℚ → ℚ) (pts : List ℚ) : List ℚ := pts.map f

/-- Modelled from the spec: out-of-order parallel dispatch, simulated (spec 5
and 8). Work items are processed in the order given by `order` (a permutation
of the flattened indices); each writes its result into the output slot fixed
by its grid position, starting from an arbitrary initial buffer `acc`. -/
def writeResults (f : ℚ → ℚ) (pts : List ℚ) (order : List Nat) (acc : List ℚ) : List ℚ :=
  order.foldl (fun a i => a.set i (f (pts.getD i 0))) acc

/-- Modelled from the spec: the output array of a permuted dispatch over a
zero-initialized buffer of the grid size. -/
def dispatchPermuted (f : ℚ → ℚ) (pts : List ℚ) (order : List Nat) : List ℚ :=
  writeResults f pts order (List.replicate pts.length 0)

/-! ### Helper lemmas -/

/-- After `n` loop iterations, `amp = gain^(n+1)` and
`ampFractal = 1 + gain + ... + gain^n`. -/
lemma fbIter_eq (gain : ℚ) (n : Nat) :
    fbIter gain n = (gain ^ (n + 1), ∑ i in Finset.range (n + 1), gain ^ i) := by
  induction n with
  | zero => simp [fbIter]
  | succ n ih =>
      simp only [fbIter, ih, fbStep, Finset.sum_range_succ, Prod.mk.injEq]
      refine ⟨by ring, ?_⟩
      trivial

lemma cppLoopBound_of_range (octaves : ℤ) (h0 : 0 ≤ octaves) (h1 : octaves < 2 ^ 32) :
    cppLoopBound octaves = octaves.toNat := by
  unfold cppLoopBound
  rw [Int.emod_eq_of_lt h0 h1]

/-- For `1 ≤ octaves < 2^32`, the bounding factor is the reciprocal of the
geometric sum `1 + gain + ... + gain^(octaves-1)`. -/
lemma calculateFractalBounding_eq_geom (gain : ℚ) (octaves : ℤ)
    (h1 : 1 ≤ octaves) (h2 : octaves < 2 ^ 32) :
    calculateFractalBounding gain octaves =
      1 / ∑ i in Finset.range octaves.toNat, gain ^ i := by
  unfold calculateFractalBounding
  rw [cppLoopBound_of_range octaves (by omega) h2, fbIter_eq]
  have h3 : octaves.toNat - 1 + 1 = octaves.toNat := by omega
  rw [h3]

/-- With zero octaves the loop never runs (`1 < 0u` is false) and the bounding
factor is `1/1 = 1`. -/
lemma calculateFractalBounding_zero (gain : ℚ) :
    calculateFractalBounding gain 0 = 1 := by
  simp [calculateFractalBounding, cppLoopBound, fbIter]

/-- With one octave the loop never runs and the bounding factor is `1`. -/
lemma calculateFractalBounding_one (gain : ℚ) :
    calculateFractalBounding gain 1 = 1 := by
  simp [calculateFractalBounding, cppLoopBound, fbIter]

lemma writeResults_length (f : ℚ → ℚ) (pts : List ℚ) (order : List Nat) (acc : List ℚ) :
    (writeResults f pts order acc).length = acc.length := by
  induction order generalizing acc with
  | nil => rfl
  | cons i rest ih => simp [writeResults, List.foldl_cons] at ih ⊢; rw [ih, List.length_set]

/-- Slots written by some in-bounds work item hold that item's result; slots
written by no item keep their initial contents. Each work item's value depends
only on its own grid position, so a repeated index rewrites the same value. -/
lemma writeResults_getD (f : ℚ → ℚ) (pts : List ℚ) (order : List Nat) :
    ∀ (acc : List ℚ) (j : Nat), j < acc.length →
    (writeResults f pts order acc).getD j 0 =
      if j ∈ order then f (pts.getD j 0) else acc.getD j 0 := by
  induction order with
  | nil => intro acc j hj; simp [writeResults]
  | cons i rest ih =>
      intro acc j hj
      have hfold : writeResults f pts (i :: rest) acc =
          writeResults f pts rest (acc.set i (f (pts.getD i 0))) := rfl
      have hlen : j < (acc.set i (f (pts.getD i 0))).length := by simpa using hj
      rw [hfold, ih _ j hlen]
      by_cases hjr : j ∈ rest
      · simp [hjr]
      · by_cases hji : j = i
        · subst hji
          have hset : (acc.set j (f (pts.getD j 0))).getD j 0 = f (pts.getD j 0) := by
            rw [List.getD_eq_getElem?_getD, List.getElem?_set_eq_of_lt _ hj]
            rfl
          rw [if_neg hjr, hset, if_pos (List.mem_cons_self j rest)]
        · have hset : (acc.set i (f (pts.getD i 0))).getD j 0 = acc.getD j 0 := by
            rw [List.getD_eq_getElem?_getD, List.getElem?_set_ne (fun hij => hji hij.symm),
              ← List.getD_eq_getElem?_getD]
          rw [if_neg hjr, hset, if_neg (by simp [hjr, hji])]

/-- An out-of-order dispatch whose work list is a permutation of the flattened
index range produces exactly the in-order output array. -/
lemma dispatchPermuted_eq_evalGrid (f : ℚ → ℚ) (pts : List ℚ) (order : List Nat)
    (hperm : order.Perm (List.range pts.length)) :
    dispatchPermuted f pts order = evalGrid f pts := by
  have hlen : (dispatchPermuted f pts order).length = pts.length := by
    simp [dispatchPermuted, writeResults_length]
  apply List.ext_getElem (by simp [hlen, evalGrid])
  intro j hj hj2
  have hjlt : j < pts.length := hlen ▸ hj
  have hmem : j ∈ order := hperm.mem_iff.mpr (List.mem_range.mpr hjlt)
  have hacc : j < (List.replicate pts.length (0 : ℚ)).length := by simpa using hjlt
  have h1 := writeResults_getD f pts order (List.replicate pts.length 0) j hacc
  rw [if_pos hmem] at h1
  calc (dispatchPermuted f pts order)[j]
      = (dispatchPermuted f pts order).getD j 0 := (List.getD_eq_getElem _ _ hj).symm
    _ = f (pts.getD j 0) := h1
    _ = (evalGrid f pts)[j] := by
        rw [List.getD_eq_getElem _ _ hjlt]
        simp [evalGrid]

/-! ### Claim theorems -/

/-- C1: the fractal bounding factor is a pure function of (gain, octaves):
it equals `CalculateFractalBounding` of the current `m_gain` and `m_octaves`
right after construction, and every setter — in particular
`SetFractalOctaves` and `SetFractalGain`, which recompute it synchronously —
preserves this invariant; no operation sets it independently. -/
theorem fractalBounding_invariant :
    (∀ (uninit : ℚ) (seed : ℤ), FractalBoundingInvariant (construct uninit seed)) ∧
    (∀ (s : State) (op : SetterOp), FractalBoundingInvariant s →
      FractalBoundingInvariant (applySetter s op)) := by
  constructor
  · intro u seed
    rfl
  · intro s op h
    cases op <;>
      simp_all [FractalBoundingInvariant, applySetter, SetSeed, SetFrequency, SetInterp,
        SetNoiseType, SetFractalOctaves, SetFractalLacunarity, SetFractalGain, SetFractalType,
        SetCellularDistanceFunction, SetCellularReturnType, SetCellularNoiseLookup,
        SetPerturbAmp, SetPeturbType, CalculateFractalBoundingM]

/-- Witness for C1 at a concrete state and setter call. -/
theorem fractalBounding_invariant_witness :
    FractalBoundingInvariant (applySetter (construct 0 1337) (SetterOp.setFractalGain 2)) :=
  fractalBounding_invariant.2 (construct 0 1337) (SetterOp.setFractalGain 2)
    (fractalBounding_invariant.1 0 1337)

/-- C2: `SetPerturbAmp(a)` stores `a / 0.45` in `m_perturbAmp`; in particular
`SetPerturbAmp(0.45)` stores exactly `1`. -/
theorem SetPerturbAmp_stores_scaled :
    (∀ (s : State) (a : ℚ), (SetPerturbAmp s a).m_perturbAmp = a / (45 / 100)) ∧
    (∀ s : State, (SetPerturbAmp s (45 / 100)).m_perturbAmp = 1) := by
  refine ⟨fun s a => rfl, fun s => ?_⟩
  norm_num [SetPerturbAmp]

/-- C3: with return type `NoiseLookup` and the lookup reference still null,
a cellular evaluation reports a configuration error, produces no output
array, and leaves the configuration untouched. -/
theorem getCellular_missing_lookup_error
    (eval : State → ℚ → ℚ) (s : State) (pts : List ℚ)
    (hret : s.m_cellularReturnType = CellularReturnType.NoiseLookup)
    (hnull : s.m_cellularNoiseLookup = Option.none) :
    (getCellularChecked eval s pts).1 = Except.error ConfigError.MissingCellularLookup ∧
    (∀ out : List ℚ, (getCellularChecked eval s pts).1 ≠ Except.ok out) ∧
    (getCellularChecked eval s pts).2 = s := by
  have hc : s.m_cellularReturnType = CellularReturnType.NoiseLookup ∧
      s.m_cellularNoiseLookup = Option.none := ⟨hret, hnull⟩
  refine ⟨?_, ?_, ?_⟩ <;> simp [getCellularChecked, if_pos hc]

/-- Witness for C3 at a concrete configuration and grid. -/
theorem getCellular_missing_lookup_error_witness :
    (getCellularChecked (fun _ x => x)
        (SetCellularReturnType (construct 0 1337) CellularReturnType.NoiseLookup)
        [1, 2]).1 = Except.error ConfigError.MissingCellularLookup ∧
    (∀ out : List ℚ, (getCellularChecked (fun _ x => x)
        (SetCellularReturnType (construct 0 1337) CellularReturnType.NoiseLookup)
        [1, 2]).1 ≠ Except.ok out) ∧
    (getCellularChecked (fun _ x => x)
        (SetCellularReturnType (construct 0 1337) CellularReturnType.NoiseLookup)
        [1, 2]).2 =
      SetCellularReturnType (construct 0 1337) CellularReturnType.NoiseLookup :=
  getCellular_missing_lookup_error (fun _ x => x)
    (SetCellularReturnType (construct 0 1337) CellularReturnType.NoiseLookup)
    [1, 2] rfl rfl

/-- C4: for every base primitive, seed, interpolation mode and coordinate,
FBM fractal noise configured with octave count 1 equals the base primitive
output undilated; equivalently, the fractal bounding factor computed for one
octave is 1 for every gain. -/
theorem fbm_one_octave_eq_base :
    (∀ (C : Type) (prim : ℤ → Interp → C → ℚ) (scale : ℚ → C → C) (s : State) (coord : C),
      fbmFractal prim scale (SetFractalOctaves s 1) coord =
        basePrimitive prim scale (SetFractalOctaves s 1) coord) ∧
    (∀ g : ℚ, calculateFractalBounding g 1 = 1) := by
  constructor
  · intro C prim scale s coord
    simp [fbmFractal, basePrimitive, SetFractalOctaves, CalculateFractalBoundingM,
      calculateFractalBounding_one]
  · exact calculateFractalBounding_one

/-- C5: on any configuration and sample point, the `Distance2Add` cellular
return value equals the sum of the `Distance` and `Distance2` return values
computed independently from the same shared nearest/second-nearest
distances; all return types branch only at the final combine step. -/
theorem cellular_distance2add_split
    (s : State) (dists : ℚ × ℚ) (cellHash lookupVal : ℚ) :
    cellularResolve (SetCellularReturnType s CellularReturnType.Distance2Add)
        dists cellHash lookupVal =
      cellularResolve (SetCellularReturnType s CellularReturnType.Distance)
        dists cellHash lookupVal +
      cellularResolve (SetCellularReturnType s CellularReturnType.Distance2)
        dists cellHash lookupVal := by
  simp [cellularResolve, cellularCombine, SetCellularReturnType]
  ring

/-- C6: per-point evaluation is a pure function, so two evaluations of the
same grid agree, and dispatching the flattened grid in any permuted order
yields the same output array, with each result at its fixed grid position. -/
theorem dispatch_deterministic_and_order_independent :
    (∀ (f : ℚ → ℚ) (pts : List ℚ), evalGrid f pts = evalGrid f pts) ∧
    (∀ (f : ℚ → ℚ) (pts : List ℚ) (order : List Nat),
      order.Perm (List.range pts.length) →
      dispatchPermuted f pts order = evalGrid f pts) :=
  ⟨fun _ _ => rfl, fun f pts order hperm => dispatchPermuted_eq_evalGrid f pts order hperm⟩

/-- Witness for C6: a three-point grid dispatched in the order 2, 0, 1. -/
theorem dispatch_order_independent_witness :
    dispatchPermuted (fun x => x + 1) [3, 4, 5] [2, 0, 1] =
      evalGrid (fun x => x + 1) [3, 4, 5] :=
  dispatch_deterministic_and_order_independent.2 (fun x => x + 1) [3, 4, 5] [2, 0, 1]
    (by decide)

/-- C7: every setter is a total pure state mutation that modifies only its own
backing field — except `SetFractalOctaves` and `SetFractalGain`, which also
update `m_fractalBounding` — and the getter `GetSeed` is a pure read that
returns the seed and mutates nothing. -/
theorem setters_frame_getters_pure :
    (∀ (s : State) (op : SetterOp) (f : Field),
      f ∉ ownFields op → obs (applySetter s op) f = obs s f) ∧
    (∀ s : State, GetSeed s = (s.m_seed, s)) := by
  constructor
  · intro s op f hf
    cases op <;> cases f <;>
      simp_all [applySetter, ownFields, obs, SetSeed, SetFrequency, SetInterp,
        SetNoiseType, SetFractalOctaves, SetFractalLacunarity, SetFractalGain, SetFractalType,
        SetCellularDistanceFunction, SetCellularReturnType, SetCellularNoiseLookup,
        SetPerturbAmp, SetPeturbType, CalculateFractalBoundingM]
  · intro s
    rfl

/-- Witness for C7: `SetFrequency` leaves the seed field unchanged on a
concrete state. -/
theorem setters_frame_getters_pure_witness :
    obs (applySetter (construct 0 1337) (SetterOp.setFrequency 5)) Field.seed =
      obs (construct 0 1337) Field.seed :=
  setters_frame_getters_pure.1 (construct 0 1337) (SetterOp.setFrequency 5) Field.seed
    (by decide)

/-- C8: a newly constructed configuration has exactly the documented defaults:
seed 1337, frequency 0.01, Quintic interpolation, Simplex family, 3 octaves,
lacunarity 2.0, gain 0.5, FBM, Euclidean distance, CellValue return type, and
warp disabled (perturb type None). -/
theorem construct_defaults (u : ℚ) :
    (constructDefault u).m_seed = 1337 ∧
    (constructDefault u).m_frequency = 1 / 100 ∧
    (constructDefault u).m_interp = Interp.Quintic ∧
    (constructDefault u).m_noiseType = NoiseType.Simplex ∧
    (constructDefault u).m_octaves = 3 ∧
    (constructDefault u).m_lacunarity = 2 ∧
    (constructDefault u).m_gain = 1 / 2 ∧
    (constructDefault u).m_fractalType = FractalType.FBM ∧
    (constructDefault u).m_cellularDistanceFunction = CellularDistanceFunction.Euclidean ∧
    (constructDefault u).m_cellularReturnType = CellularReturnType.CellValue ∧
    (constructDefault u).m_perturb = PerturbType.None :=
  ⟨rfl, rfl, rfl, rfl, rfl, rfl, rfl, rfl, rfl, rfl, rfl⟩

/-- C9: although `SetCellularNoiseLookup` merely stores the passed pointer,
the destructor `delete`s whatever instance is currently referenced, so after
setting the reference to an instance, destruction deletes that instance —
ownership is de facto transferred when the reference is set. -/
theorem destructor_deletes_current_lookup :
    (∀ s : State, destructorDeletes s = s.m_cellularNoiseLookup) ∧
    (∀ (s : State) (p : Nat),
      (SetCellularNoiseLookup s (Option.some p)).m_cellularNoiseLookup = Option.some p ∧
      destructorDeletes (SetCellularNoiseLookup s (Option.some p)) = Option.some p) :=
  ⟨fun _ => rfl, fun _ _ => ⟨rfl, rfl⟩⟩

/-- C10: `CalculateFractalBounding` stores
`1 / (1 + gain + gain^2 + ... + gain^(octaves-1))` for any octave count
`octaves ≥ 1` (in the `int` range), and for octave counts 0 and 1 the loop
body never runs, so the bounding factor is exactly 1 for every gain. -/
theorem calculateFractalBounding_closed_form :
    (∀ (g : ℚ) (O : ℤ), 1 ≤ O → O < 2 ^ 32 →
      calculateFractalBounding g O = 1 / ∑ i in Finset.range O.toNat, g ^ i) ∧
    (∀ g : ℚ, calculateFractalBounding g 0 = 1 ∧ calculateFractalBounding g 1 = 1) :=
  ⟨fun g O h1 h2 => calculateFractalBounding_eq_geom g O h1 h2,
   fun g => ⟨calculateFractalBounding_zero g, calculateFractalBounding_one g⟩⟩

/-- Witness for C10 at gain 1/2 and three octaves:
the bounding factor is `1 / (1 + 1/2 + 1/4)`. -/
theorem calculateFractalBounding_closed_form_witness :
    calculateFractalBounding (1 / 2) 3 = 1 / ∑ i in Finset.range (Int.toNat 3), ((1 : ℚ) / 2) ^ i :=
  calculateFractalBounding_closed_form.1 (1 / 2) 3 (by decide) (by decide)

end FastNoiseCL
